import Mathlib

/-!
Shallow embedding of `src/server.js` (the Commit Listing Service and Health
Probe of the sample-server repository), together with theorems settling the
behavioural claims of the specification against it.

The server is a single Express route `GET /api/commits` plus `GET /health`.
We embed:
  * the JavaScript `parseInt(x) || default` parameter handling (lines 39-40),
  * the validation (lines 48-60),
  * the textual SQL construction (lines 63-90) — kept syntactic, because the
    source interpolates values into the query string,
  * the semantics of executing the data query and the count query against a
    table of rows ordered by `created_at`,
  * the response assembly (lines 104-124) and the catch block (lines 125-132),
  * the health endpoint (lines 136-138).
-/

namespace SampleServer

/-- A row of the `commits` table: a `created_at` timestamp (modelled as an
integer time value, the order the store compares `timestamptz` by) plus the
remaining columns, kept opaque as a payload identifier.  `SELECT *` returns
rows verbatim. -/
structure Row where
  created_at : Int
  payload : Nat
deriving DecidableEq, Repr

/-- An incoming request's query parameters, each absent (`none`) or a raw
string.  Express exposes `req.query.page`, `req.query.limit`,
`req.query.start_date`, `req.query.end_date`. -/
structure Request where
  page : Option String := none
  limit : Option String := none
  start_date : Option String := none
  end_date : Option String := none
deriving DecidableEq, Repr

/-- The pagination metadata block built at lines 112-119 of the source. -/
structure Pagination where
  total : Nat
  page : Int
  limit : Int
  totalPages : Int
  hasNextPage : Bool
  hasPrevPage : Bool
deriving DecidableEq, Repr

/-- The JSON body of a `/api/commits` response: `success:true` with data,
pagination and the filter echo, or `success:false` with an error string and
an optional detail message (lines 109-124 and 127-131). -/
inductive ApiBody where
  | success (data : List Row) (pagination : Pagination)
      (filters : Option String × Option String)
  | failure (error : String) (message : Option String)
deriving DecidableEq, Repr

/-- An HTTP response: status code plus JSON body. -/
structure ApiResponse where
  status : Nat
  body : ApiBody
deriving DecidableEq, Repr

/-- The execution environment of one request: the `commits` table held by the
backing store, the store's parser for `timestamptz` literals (returning the
timestamp value, or `none` when the text is not a valid timestamp), the
`NODE_ENV` configuration string, and an optional injected failure for each of
the two queries (connectivity loss, timeout, ...). -/
structure Env where
  table : List Row
  parseTimestamp : String → Option Int
  nodeEnv : String
  dataQueryFailure : Option String := none
  countQueryFailure : Option String := none

/-! ### JavaScript parameter handling -/

/-- Accumulates the longest leading run of decimal digits; `none` when the
run is empty (which JavaScript `parseInt` reports as `NaN`). -/
def takeDigits : List Char → Option Nat → Option Nat
  | [], acc => acc
  | c :: cs, acc =>
    if c.isDigit then takeDigits cs (some ((acc.getD 0) * 10 + (c.toNat - 48)))
    else acc

/-- Models JavaScript `parseInt` on a base-10 string: skip leading
whitespace, read an optional sign, then the longest prefix of decimal
digits; `none` models `NaN` (no digits at all). -/
def jsParseInt (s : String) : Option Int :=
  let cs := s.toList.dropWhile (fun c => c = ' ' || c = '\t' || c = '\n' || c = '\r')
  match cs with
  | '-' :: rest => (takeDigits rest none).map (fun n => -(n : Int))
  | '+' :: rest => (takeDigits rest none).map (fun n => (n : Int))
  | rest => (takeDigits rest none).map (fun n => (n : Int))

/-- `parseInt(req.query.x)`: an absent parameter gives `NaN` (`none`). -/
def parseIntParam : Option String → Option Int
  | none => none
  | some s => jsParseInt s

/-- JavaScript `v || d` after `parseInt`: `NaN` (`none`) and `0` are falsy
and replaced by the default. -/
def jsOrDefault (v : Option Int) (d : Int) : Int :=
  match v with
  | none => d
  | some n => if n = 0 then d else n

/-- `const page = parseInt(req.query.page) || 1` (line 39). -/
def effectivePage (req : Request) : Int :=
  jsOrDefault (parseIntParam req.page) 1

/-- `const limit = parseInt(req.query.limit) || 10` (line 40). -/
def effectiveLimit (req : Request) : Int :=
  jsOrDefault (parseIntParam req.limit) 10

/-- JavaScript truthiness of a possibly-absent string: `undefined` and the
empty string are falsy. -/
def truthy : Option String → Bool
  | none => false
  | some s => s ≠ ""

/-- `startDate || null` (lines 121-122): the filter echo collapses falsy
values (absent, empty string) to `null`. -/
def jsOrNull : Option String → Option String
  | none => none
  | some s => if s = "" then none else some s

/-! ### Query construction (syntactic, lines 63-96)

The source interpolates the date strings and the limit/offset numbers into
the SQL text; the parameter array stays empty (the `push` at line 76 is
commented out). -/

/-- The `WHERE` clause built at lines 63-73, with the caller's date strings
interpolated between single quotes. -/
def buildWhereClause (startDate endDate : Option String) : String :=
  if truthy startDate && truthy endDate then
    "WHERE created_at BETWEEN \x27" ++ startDate.getD "" ++ "\x27::timestamptz AND \x27"
      ++ endDate.getD "" ++ "\x27::timestamptz"
  else if truthy startDate then
    "WHERE created_at >= \x27" ++ startDate.getD "" ++ "\x27::timestamptz"
  else if truthy endDate then
    "WHERE created_at <= \x27" ++ endDate.getD "" ++ "\x27::timestamptz"
  else ""

/-- The data query text (lines 79-84): note `OFFSET page*limit`. -/
def commitsQueryText (startDate endDate : Option String) (limit page : Int) : String :=
  "\n      SELECT * FROM commits \n      " ++ buildWhereClause startDate endDate
    ++ "\n      ORDER BY created_at ASC\n      LIMIT " ++ toString limit
    ++ " OFFSET " ++ toString (page * limit) ++ "\n    "

/-- The count query text (lines 87-90). -/
def countQueryText (startDate endDate : Option String) : String :=
  "\n      SELECT COUNT(*) AS total FROM commits \n      "
    ++ buildWhereClause startDate endDate ++ "\n    "

/-- The bound-parameter array passed to `pool.query` (line 64; the
`queryParams.push(limit, offset)` at line 76 is commented out, so it is
always empty). -/
def queryParams : List String := []

/-! ### Query semantics -/

/-- The row filter denoted by the `WHERE` clause, after the date strings have
been resolved to timestamp values (`none` = that bound absent): both bounds
give `BETWEEN`, inclusive on both ends; one bound gives `>=` or `<=`;
no bounds, no filter. -/
def matchesFilter (sd ed : Option Int) (r : Row) : Bool :=
  match sd, ed with
  | some s, some e => decide (s ≤ r.created_at) && decide (r.created_at ≤ e)
  | some s, none => decide (s ≤ r.created_at)
  | none, some e => decide (r.created_at ≤ e)
  | none, none => true

/-- `ORDER BY created_at ASC` as a relation on rows. -/
def rowLe (a b : Row) : Prop := a.created_at ≤ b.created_at

instance : DecidableRel rowLe := fun a b => inferInstanceAs (Decidable (a.created_at ≤ b.created_at))

instance : IsTotal Row rowLe := ⟨fun a b => Int.le_total a.created_at b.created_at⟩

instance : IsTrans Row rowLe := ⟨fun _ _ _ hab hbc => le_trans hab hbc⟩

/-- The filtered result set of the query, ordered ascending by `created_at`
(`SELECT * FROM commits WHERE ... ORDER BY created_at ASC`). -/
def selectFiltered (table : List Row) (sd ed : Option Int) : List Row :=
  List.insertionSort rowLe (table.filter (matchesFilter sd ed))

/-- The rows the data query returns: the filtered, ordered result set cut by
`LIMIT limit OFFSET page*limit` (line 83 of the source; the unused variable
`offset = (page-1)*limit` at line 45 does not appear in the query). -/
def dataQueryRows (table : List Row) (sd ed : Option Int) (limit page : Int) : List Row :=
  ((selectFiltered table sd ed).drop (page * limit).toNat).take limit.toNat

/-- The count query result: `COUNT(*)` under the same `WHERE` clause,
without pagination. -/
def countQueryTotal (table : List Row) (sd ed : Option Int) : Nat :=
  (table.filter (matchesFilter sd ed)).length

/-- Resolution of one caller-supplied date string by the store: a falsy value
(absent or empty) contributes no bound; otherwise the store parses the
literal, and an unparsable timestamp makes the query fail. -/
def resolveDate (parse : String → Option Int) (d : Option String) : Except String (Option Int) :=
  match d with
  | none => Except.ok none
  | some s =>
    if s = "" then Except.ok none
    else
      match parse s with
      | some t => Except.ok (some t)
      | none => Except.error ("invalid input syntax for type timestamptz: " ++ s)

/-- Executing both queries (`Promise.all`, lines 99-102): either query's
failure rejects the pair; otherwise the data rows and the total count are
produced together. -/
def runCommitQueries (env : Env) (startDate endDate : Option String)
    (limit page : Int) : Except String (List Row × Nat) :=
  match env.dataQueryFailure with
  | some m => Except.error m
  | none =>
    match env.countQueryFailure with
    | some m => Except.error m
    | none =>
      match resolveDate env.parseTimestamp startDate with
      | Except.error m => Except.error m
      | Except.ok sd =>
        match resolveDate env.parseTimestamp endDate with
        | Except.error m => Except.error m
        | Except.ok ed =>
          Except.ok (dataQueryRows env.table sd ed limit page,
            countQueryTotal env.table sd ed)

/-- `Math.ceil(totalCount / limit)` (line 106): the ceiling of the exact
quotient, computed by the standard natural-number formula (the two agree for
every reachable `limit ≥ 1`, proved in `jsMathCeil_eq_ceil` below). -/
def jsMathCeil (total : Nat) (limit : Int) : Int :=
  ((total + limit.toNat - 1) / limit.toNat : Nat)

/-! ### The handler -/

/-- `GET /api/commits` (lines 36-133): parse parameters with defaults,
validate, run both queries, assemble the response; any query failure is
caught and mapped to a 500 whose detail message is exposed only when
`NODE_ENV === 'development'`. -/
def handle (env : Env) (req : Request) : ApiResponse :=
  let page := effectivePage req
  let limit := effectiveLimit req
  if page < 1 ∨ limit < 1 then
    ⟨400, ApiBody.failure "Page and limit must be positive integers" none⟩
  else if 100 < limit then
    ⟨400, ApiBody.failure "Maximum limit is 100 records per request" none⟩
  else
    match runCommitQueries env req.start_date req.end_date limit page with
    | Except.error m =>
      ⟨500, ApiBody.failure "Internal server error"
        (if env.nodeEnv = "development" then some m else none)⟩
    | Except.ok (commits, totalCount) =>
      let totalPages : Int := jsMathCeil totalCount limit
      ⟨200, ApiBody.success commits
        ⟨totalCount, page, limit, totalPages,
          decide (page < totalPages), decide (1 < page)⟩
        (jsOrNull req.start_date, jsOrNull req.end_date)⟩

/-- `GET /health` (lines 136-138): a constant function of the whole
environment. -/
def healthHandler (_env : Env) : Nat × String := (200, "ok")

/-! ### Response accessors -/

/-- The `data` array of a successful response, `none` on an error body. -/
def responseData : ApiResponse → Option (List Row)
  | ⟨_, ApiBody.success d _ _⟩ => some d
  | _ => none

/-- The `pagination` block of a successful response. -/
def responsePagination : ApiResponse → Option Pagination
  | ⟨_, ApiBody.success _ p _⟩ => some p
  | _ => none

/-- The `filters` echo of a successful response. -/
def responseFilters : ApiResponse → Option (Option String × Option String)
  | ⟨_, ApiBody.success _ _ f⟩ => some f
  | _ => none

/-- The `success` boolean of the JSON body. -/
def responseSuccess : ApiResponse → Bool
  | ⟨_, ApiBody.success _ _ _⟩ => true
  | ⟨_, ApiBody.failure _ _⟩ => false

/-! ### Concrete test fixtures -/

/-- A table of 25 rows with timestamps 0..24, already in ascending order. -/
def table25 : List Row := (List.range 25).map (fun (i : Nat) => ⟨(i : Int), i⟩)

/-- A production environment over `table25` whose store parses no timestamp
literal (the claims that use it supply no dates). -/
def env25 : Env := ⟨table25, fun _ => none, "production", none, none⟩

/-- A tiny three-row table for witnesses. -/
def table3 : List Row := [⟨0, 0⟩, ⟨1, 1⟩, ⟨2, 2⟩]

/-- A development environment over `table3` whose store parses a decimal
digit string as the corresponding timestamp. -/
def env3 : Env := ⟨table3, fun s => jsParseInt s, "development", none, none⟩

/-- A production environment over `table3` whose data query fails. -/
def envFail : Env := ⟨table3, fun _ => none, "production", some "boom", none⟩

/-- The unused variable `offset = (page - 1) * limit` computed at line 45 of
the source; it appears nowhere in the query text (line 83 interpolates
`page*limit` instead). -/
def declaredOffset (page limit : Int) : Int := (page - 1) * limit

/-- The rows with timestamps 10..19: what the handler actually returns for
page 1, limit 10 over `table25`. -/
def rows10to19 : List Row :=
  (List.range 10).map (fun (i : Nat) => ⟨(i : Int) + 10, i + 10⟩)

/-- A date string carrying a quote and SQL metacharacters, used to probe the
query construction. -/
def injDate : String := "1970-01-01\x27; DROP TABLE commits; --"

/-! ### Spec-side definitions (for refinement comparisons)

These two follow the specification's words, to be compared against the
definitions translated from the source. -/

/-- The row filter as the specification states it: both dates give the
inclusive range, a single date gives the one-sided bound, no dates no
filter. -/
def specAllowed (sd ed : Option Int) (r : Row) : Prop :=
  match sd, ed with
  | some s, some e => s ≤ r.created_at ∧ r.created_at ≤ e
  | some s, none => s ≤ r.created_at
  | none, some e => r.created_at ≤ e
  | none, none => True

instance (sd ed : Option Int) (r : Row) : Decidable (specAllowed sd ed r) :=
  match sd, ed with
  | some s, some e => inferInstanceAs (Decidable (s ≤ r.created_at ∧ r.created_at ≤ e))
  | some s, none => inferInstanceAs (Decidable (s ≤ r.created_at))
  | none, some e => inferInstanceAs (Decidable (r.created_at ≤ e))
  | none, none => inferInstanceAs (Decidable True)

/-- The filter echo as the amended claim states it: the supplied value,
with null substituted for an absent or empty-string value. -/
def specFilterEcho : Option String → Option String
  | none => none
  | some s => if s = "" then none else some s

/-! ### Helper lemmas -/

/-- The formula `(t + l - 1) / l` used by `jsMathCeil` computes the ceiling
of the exact quotient for every positive `l`. -/
theorem jsMathCeil_eq_ceil (t : Nat) (l : Int) (hl : 1 ≤ l) :
    jsMathCeil t l = Int.ceil ((t : ℚ) / (l : ℚ)) := by
  have hl0 : (0 : Int) < l := hl
  have hlt : 1 ≤ l.toNat := by omega
  have hcast : (l.toNat : Int) = l := Int.toNat_of_nonneg (by omega)
  have hdm := Nat.div_add_mod (t + l.toNat - 1) l.toNat
  have hr : (t + l.toNat - 1) % l.toNat < l.toNat := Nat.mod_lt _ (by omega)
  set l' := l.toNat with hl'
  set n := (t + l' - 1) / l' with hn
  set r := (t + l' - 1) % l' with hrd
  set m := l' * n with hm
  have hub : m < t + l' := by omega
  have hlb : t ≤ m := by omega
  have hlq : (0 : ℚ) < (l : ℚ) := by exact_mod_cast hl0
  have hcq : ((l' : ℕ) : ℚ) = (l : ℚ) := by exact_mod_cast hcast
  have hmq : ((m : ℕ) : ℚ) = (n : ℚ) * (l : ℚ) := by
    rw [hm]; push_cast; rw [hcq]; ring
  have hgoal : jsMathCeil t l = ((n : ℕ) : Int) := rfl
  rw [hgoal]
  symm
  rw [Int.ceil_eq_iff]
  constructor
  · have h1 : ((n : ℚ) - 1) * (l : ℚ) < (t : ℚ) := by
      have : ((m : ℕ) : ℚ) < (t : ℚ) + (l : ℚ) := by
        rw [← hcq]; exact_mod_cast hub
      rw [hmq] at this; nlinarith
    have := (lt_div_iff₀ hlq).mpr h1
    push_cast
    push_cast at this
    linarith
  · have h2 : (t : ℚ) ≤ (n : ℚ) * (l : ℚ) := by
      rw [← hmq]; exact_mod_cast hlb
    have := (div_le_iff₀ hlq).mpr h2
    push_cast
    push_cast at this
    linarith

/-- The source's filter function agrees with the specification's. -/
theorem matchesFilter_eq_specAllowed (sd ed : Option Int) :
    matchesFilter sd ed = fun r => decide (specAllowed sd ed r) := by
  funext r
  rcases sd with _ | s <;> rcases ed with _ | e <;>
    simp [matchesFilter, specAllowed]

/-- The source's falsy-collapsing echo agrees with the amended claim's. -/
theorem jsOrNull_eq_specFilterEcho : jsOrNull = specFilterEcho := by
  funext d
  rcases d with _ | s <;> rfl

/-- Inversion on a successful pair of queries: both failure injections are
absent and both dates resolved. -/
theorem runCommitQueries_ok (env : Env) (sds eds : Option String)
    (limit page : Int) (rows : List Row) (total : Nat)
    (h : runCommitQueries env sds eds limit page = Except.ok (rows, total)) :
    ∃ sd ed, resolveDate env.parseTimestamp sds = Except.ok sd ∧
      resolveDate env.parseTimestamp eds = Except.ok ed ∧
      rows = dataQueryRows env.table sd ed limit page ∧
      total = countQueryTotal env.table sd ed := by
  unfold runCommitQueries at h
  split at h
  · exact Except.noConfusion h
  · split at h
    · exact Except.noConfusion h
    · split at h
      · exact Except.noConfusion h
      · rename_i sd hsd
        split at h
        · exact Except.noConfusion h
        · rename_i ed hed
          injection h with h1
          rw [Prod.mk.injEq] at h1
          exact ⟨sd, ed, hsd, hed, h1.1.symm, h1.2.symm⟩

/-- Inversion on a 200 response: the request passed validation, both dates
resolved, and every component of the body is the one the handler builds. -/
theorem handle_success_inv (env : Env) (req : Request) (data : List Row)
    (pag : Pagination) (f : Option String × Option String)
    (h : handle env req = ⟨200, ApiBody.success data pag f⟩) :
    1 ≤ effectivePage req ∧ 1 ≤ effectiveLimit req ∧ effectiveLimit req ≤ 100 ∧
    ∃ sd ed, resolveDate env.parseTimestamp req.start_date = Except.ok sd ∧
      resolveDate env.parseTimestamp req.end_date = Except.ok ed ∧
      data = dataQueryRows env.table sd ed (effectiveLimit req) (effectivePage req) ∧
      pag = ⟨countQueryTotal env.table sd ed, effectivePage req, effectiveLimit req,
        jsMathCeil (countQueryTotal env.table sd ed) (effectiveLimit req),
        decide (effectivePage req
          < jsMathCeil (countQueryTotal env.table sd ed) (effectiveLimit req)),
        decide (1 < effectivePage req)⟩ ∧
      f = (jsOrNull req.start_date, jsOrNull req.end_date) := by
  simp only [handle] at h
  by_cases h1 : effectivePage req < 1 ∨ effectiveLimit req < 1
  · rw [if_pos h1] at h
    exact absurd (congrArg ApiResponse.status h) (by simp)
  · rw [if_neg h1] at h
    by_cases h2 : 100 < effectiveLimit req
    · rw [if_pos h2] at h
      exact absurd (congrArg ApiResponse.status h) (by simp)
    · rw [if_neg h2] at h
      push_neg at h1 h2
      refine ⟨by omega, by omega, by omega, ?_⟩
      rcases hrun : runCommitQueries env req.start_date req.end_date
          (effectiveLimit req) (effectivePage req) with m | pr
      · rw [hrun] at h
        exact absurd (congrArg ApiResponse.status h) (by simp)
      · rcases pr with ⟨commits, totalCount⟩
        rw [hrun] at h
        obtain ⟨sd, ed, hsd, hed, hrows, htotal⟩ :=
          runCommitQueries_ok env req.start_date req.end_date _ _ _ _ hrun
        injection h with hstatus hbody
        injection hbody with hdata hpag hf
        exact ⟨sd, ed, hsd, hed, by rw [← hdata, hrows],
          by rw [← hpag, htotal], hf.symm⟩

/-! ### Claim theorems -/

/-- C1: with 25 matching records and `limit=10` the handler does not return
the p-th consecutive block: because the query says `OFFSET page*limit`
(line 83, ignoring the `offset = (page-1)*limit` computed at line 45),
page 1 returns the rows at positions 10..19 — not the first block, which
`declaredOffset` would select — and page 3 returns 0 records instead
of 5. -/
theorem offset_bug_eval :
    responseData (handle env25 ⟨some "1", some "10", none, none⟩) = some rows10to19 ∧
    responseData (handle env25 ⟨some "3", some "10", none, none⟩) = some [] ∧
    ((selectFiltered table25 none none).drop (declaredOffset 1 10).toNat).take 10
      = table25.take 10 ∧
    rows10to19 ≠ table25.take 10 := by
  refine ⟨by decide, by decide, by decide, by decide⟩

/-- C2 (amended): a request whose defaulted page is < 1, or whose defaulted
limit is < 1 or > 100, is answered 400 with `success:false`, and the
response is the same over every environment (no query is issued); the
original claim fails for the inputs `page=0` and `limit=0`, which JavaScript
`parseInt(x) || d` treats as falsy and replaces by the defaults 1 and 10, so
those requests are not rejected (see the counterexample). -/
theorem validation_amended (req : Request) (env env2 : Env)
    (h : effectivePage req < 1 ∨ effectiveLimit req < 1 ∨ 100 < effectiveLimit req) :
    (handle env req).status = 400 ∧ responseSuccess (handle env req) = false ∧
      handle env req = handle env2 req := by
  by_cases h1 : effectivePage req < 1 ∨ effectiveLimit req < 1
  · have key : ∀ e : Env, handle e req
        = ⟨400, ApiBody.failure "Page and limit must be positive integers" none⟩ := by
      intro e
      unfold handle
      rw [if_pos h1]
    exact ⟨by rw [key env], by rw [key env]; rfl, by rw [key env, key env2]⟩
  · have h2 : 100 < effectiveLimit req := by tauto
    have key : ∀ e : Env, handle e req
        = ⟨400, ApiBody.failure "Maximum limit is 100 records per request" none⟩ := by
      intro e
      unfold handle
      rw [if_neg h1, if_pos h2]
    exact ⟨by rw [key env], by rw [key env]; rfl, by rw [key env, key env2]⟩

/-- Witness for C2 (amended): `page=-1` parses to −1 < 1 and is rejected
with 400 identically over two different environments. -/
theorem validation_amended_witness :
    (handle env25 ⟨some "-1", none, none, none⟩).status = 400 ∧
      responseSuccess (handle env25 ⟨some "-1", none, none, none⟩) = false ∧
      handle env25 ⟨some "-1", none, none, none⟩
        = handle env3 ⟨some "-1", none, none, none⟩ :=
  validation_amended ⟨some "-1", none, none, none⟩ env25 env3 (by decide)

/-- C2 counterexample: the request `page=0&limit=0` is not answered 400 —
`parseInt` yields the falsy 0, so page and limit silently become 1 and 10
and the query runs, returning 200 with `success:true`. -/
theorem validation_zero_counterexample :
    (handle env25 ⟨some "0", some "0", none, none⟩).status = 200 ∧
      responseSuccess (handle env25 ⟨some "0", some "0", none, none⟩) = true ∧
      effectivePage ⟨some "0", some "0", none, none⟩ = 1 ∧
      effectiveLimit ⟨some "0", some "0", none, none⟩ = 10 := by
  refine ⟨by decide, by decide, by decide, by decide⟩

/-- C3: the caller's date value is concatenated verbatim into both query
strings (between single quotes), and the bound-parameter array passed to the
store is empty — a value carrying a quote and SQL metacharacters lands
inside the executed SQL text, contrary to the claim that dates are passed
only as bound values. -/
theorem date_interpolation_eval :
    queryParams = [] ∧
    buildWhereClause (some injDate) none
      = "WHERE created_at >= \x27" ++ injDate ++ "\x27::timestamptz" ∧
    commitsQueryText (some injDate) none 10 1
      = "\n      SELECT * FROM commits \n      WHERE created_at >= \x27" ++ injDate
          ++ "\x27::timestamptz\n      ORDER BY created_at ASC\n      LIMIT 10 OFFSET 10\n    " ∧
    countQueryText (some injDate) none
      = "\n      SELECT COUNT(*) AS total FROM commits \n      WHERE created_at >= \x27"
          ++ injDate ++ "\x27::timestamptz\n    " := by
  refine ⟨rfl, rfl, rfl, rfl⟩

/-- C4: in every 200 response the pagination metadata satisfies
`totalPages = ceil(total/limit)`, `hasNextPage = page < totalPages` and
`hasPrevPage = page > 1`, where `total` is the count query's result and
`page`, `limit` are the validated request values. -/
theorem pagination_metadata (env : Env) (req : Request) (data : List Row)
    (pag : Pagination) (f : Option String × Option String)
    (h : handle env req = ⟨200, ApiBody.success data pag f⟩) :
    pag.page = effectivePage req ∧ pag.limit = effectiveLimit req ∧
    (∃ sd ed, resolveDate env.parseTimestamp req.start_date = Except.ok sd ∧
      resolveDate env.parseTimestamp req.end_date = Except.ok ed ∧
      pag.total = countQueryTotal env.table sd ed) ∧
    pag.totalPages = Int.ceil ((pag.total : ℚ) / (pag.limit : ℚ)) ∧
    pag.hasNextPage = decide (pag.page < pag.totalPages) ∧
    pag.hasPrevPage = decide (1 < pag.page) := by
  obtain ⟨hp1, hl1, hl100, sd, ed, hsd, hed, hdata, hpag, hf⟩ :=
    handle_success_inv env req data pag f h
  subst hpag
  exact ⟨rfl, rfl, ⟨sd, ed, hsd, hed, rfl⟩,
    jsMathCeil_eq_ceil _ _ hl1, rfl, rfl⟩

/-- Witness for C4: a concrete 200 response (3 rows, `limit=2`, `page=1`)
whose metadata satisfies all three formulas. -/
theorem pagination_metadata_witness :
    (⟨3, 1, 2, 2, true, false⟩ : Pagination).page
        = effectivePage ⟨some "1", some "2", none, none⟩ ∧
    (⟨3, 1, 2, 2, true, false⟩ : Pagination).limit
        = effectiveLimit ⟨some "1", some "2", none, none⟩ ∧
    (∃ sd ed, resolveDate env3.parseTimestamp
        (⟨some "1", some "2", none, none⟩ : Request).start_date = Except.ok sd ∧
      resolveDate env3.parseTimestamp
        (⟨some "1", some "2", none, none⟩ : Request).end_date = Except.ok ed ∧
      (⟨3, 1, 2, 2, true, false⟩ : Pagination).total
        = countQueryTotal env3.table sd ed) ∧
    (⟨3, 1, 2, 2, true, false⟩ : Pagination).totalPages
      = Int.ceil (((⟨3, 1, 2, 2, true, false⟩ : Pagination).total : ℚ)
          / ((⟨3, 1, 2, 2, true, false⟩ : Pagination).limit : ℚ)) ∧
    (⟨3, 1, 2, 2, true, false⟩ : Pagination).hasNextPage
      = decide ((⟨3, 1, 2, 2, true, false⟩ : Pagination).page
          < (⟨3, 1, 2, 2, true, false⟩ : Pagination).totalPages) ∧
    (⟨3, 1, 2, 2, true, false⟩ : Pagination).hasPrevPage
      = decide (1 < (⟨3, 1, 2, 2, true, false⟩ : Pagination).page) :=
  pagination_metadata env3 ⟨some "1", some "2", none, none⟩
    [⟨2, 2⟩] ⟨3, 1, 2, 2, true, false⟩ (none, none) (by decide)

/-- C5: the result set the data query draws from is exactly the rows the
specification's filter allows (both dates: inclusive range; one date:
one-sided bound; no dates: everything), ordered ascending by the timestamp
column, and the count query applies the identical filter with no
pagination. -/
theorem query_filter_order (table : List Row) (sd ed : Option Int) :
    List.Perm (selectFiltered table sd ed)
      (table.filter (fun r => decide (specAllowed sd ed r))) ∧
    List.Sorted rowLe (selectFiltered table sd ed) ∧
    countQueryTotal table sd ed
      = (table.filter (fun r => decide (specAllowed sd ed r))).length := by
  refine ⟨?_, ?_, ?_⟩
  · unfold selectFiltered
    rw [← matchesFilter_eq_specAllowed]
    exact List.perm_insertionSort rowLe _
  · exact List.sorted_insertionSort rowLe _
  · unfold countQueryTotal
    rw [← matchesFilter_eq_specAllowed]

/-- C6: an absent or unparsable `page` defaults to 1, an absent or
unparsable `limit` defaults to 10, and a request with both defaulted is
never rejected with 400. -/
theorem default_params (env : Env) (req : Request) :
    (parseIntParam req.page = none → effectivePage req = 1) ∧
    (parseIntParam req.limit = none → effectiveLimit req = 10) ∧
    (parseIntParam req.page = none → parseIntParam req.limit = none →
      (handle env req).status ≠ 400) := by
  refine ⟨?_, ?_, ?_⟩
  · intro hp
    simp [effectivePage, hp, jsOrDefault]
  · intro hl
    simp [effectiveLimit, hl, jsOrDefault]
  · intro hp hl
    have h1 : effectivePage req = 1 := by simp [effectivePage, hp, jsOrDefault]
    have h2 : effectiveLimit req = 10 := by simp [effectiveLimit, hl, jsOrDefault]
    unfold handle
    rw [h1, h2]
    norm_num
    split <;> simp

/-- Witness for C6: an unparsable `page`, an unparsable `limit`, and a
request with both absent that is not rejected. -/
theorem default_params_witness :
    effectivePage ⟨some "abc", none, none, none⟩ = 1 ∧
    effectiveLimit ⟨none, some "abc", none, none⟩ = 10 ∧
    (handle env25 ⟨none, none, none, none⟩).status ≠ 400 :=
  ⟨(default_params env25 ⟨some "abc", none, none, none⟩).1 (by decide),
   (default_params env25 ⟨none, some "abc", none, none⟩).2.1 (by decide),
   (default_params env25 ⟨none, none, none, none⟩).2.2 (by decide) (by decide)⟩

/-- C7: when a request passes validation and either backing-store query
fails, the handler answers 500 with `success:false` and the generic error
string, the detail message appears only when `NODE_ENV` is `development`
(hence never in production), and the error body carries no data and no
pagination. -/
theorem backend_failure_500 (env : Env) (req : Request) (m : String)
    (hp : 1 ≤ effectivePage req) (hl1 : 1 ≤ effectiveLimit req)
    (hl2 : effectiveLimit req ≤ 100)
    (hfail : runCommitQueries env req.start_date req.end_date
      (effectiveLimit req) (effectivePage req) = Except.error m) :
    handle env req = ⟨500, ApiBody.failure "Internal server error"
        (if env.nodeEnv = "development" then some m else none)⟩ ∧
    responseSuccess (handle env req) = false ∧
    responseData (handle env req) = none ∧
    responsePagination (handle env req) = none ∧
    ((if env.nodeEnv = "development" then some m else none) ≠ none →
      env.nodeEnv ≠ "production") := by
  have key : handle env req = ⟨500, ApiBody.failure "Internal server error"
      (if env.nodeEnv = "development" then some m else none)⟩ := by
    unfold handle
    rw [if_neg (by omega), if_neg (by omega), hfail]
  refine ⟨key, by rw [key]; rfl, by rw [key]; rfl, by rw [key]; rfl, ?_⟩
  intro hm
  by_cases hdev : env.nodeEnv = "development"
  · rw [hdev]
    decide
  · rw [if_neg hdev] at hm
    exact absurd rfl hm

/-- Witness for C7: a failing data query in a production environment yields
the bare 500 response. -/
theorem backend_failure_500_witness :
    handle envFail ⟨none, none, none, none⟩ = ⟨500, ApiBody.failure "Internal server error"
        (if envFail.nodeEnv = "development" then some "boom" else none)⟩ ∧
    responseSuccess (handle envFail ⟨none, none, none, none⟩) = false ∧
    responseData (handle envFail ⟨none, none, none, none⟩) = none ∧
    responsePagination (handle envFail ⟨none, none, none, none⟩) = none ∧
    ((if envFail.nodeEnv = "development" then some "boom" else none) ≠ none →
      envFail.nodeEnv ≠ "production") :=
  backend_failure_500 envFail ⟨none, none, none, none⟩ "boom"
    (by decide) (by decide) (by decide) rfl

/-- C8 (amended): every 200 response echoes the supplied filter values, with
null substituted for an absent or empty-string value; the original claim
(null only for an absent value) fails at `start_date=""` — see the
counterexample. -/
theorem filters_echo_amended (env : Env) (req : Request) (data : List Row)
    (pag : Pagination) (f : Option String × Option String)
    (h : handle env req = ⟨200, ApiBody.success data pag f⟩) :
    f.1 = specFilterEcho req.start_date ∧ f.2 = specFilterEcho req.end_date := by
  obtain ⟨hp1, hl1, hl100, sd, ed, hsd, hed, hdata, hpag, hf⟩ :=
    handle_success_inv env req data pag f h
  rw [hf, ← jsOrNull_eq_specFilterEcho]
  exact ⟨rfl, rfl⟩

/-- Witness for C8 (amended): a 200 response for `start_date="2"` echoes
exactly `some "2"` and null for the absent `end_date`. -/
theorem filters_echo_amended_witness :
    ((some "2", (none : Option String)) : Option String × Option String).1
        = specFilterEcho (⟨some "1", some "2", some "2", none⟩ : Request).start_date ∧
    ((some "2", (none : Option String)) : Option String × Option String).2
        = specFilterEcho (⟨some "1", some "2", some "2", none⟩ : Request).end_date :=
  filters_echo_amended env3 ⟨some "1", some "2", some "2", none⟩
    [] ⟨1, 1, 2, 1, false, false⟩ (some "2", none) (by decide)

/-- C8 counterexample: the caller supplies `start_date=""` (present, not
absent), the response is successful, and the echoed value is null rather
than the supplied empty string. -/
theorem filters_echo_counterexample :
    (⟨none, none, some "", none⟩ : Request).start_date = some "" ∧
    responseFilters (handle env25 ⟨none, none, some "", none⟩) = some (none, none) ∧
    (some "" : Option String) ≠ none := by
  refine ⟨rfl, by decide, by decide⟩

/-- C9: `GET /health` answers 200 with body `ok` in every environment —
table contents, store failures and configuration included — so the response
is independent of the backing store. -/
theorem health_always_ok (env env2 : Env) :
    healthHandler env = (200, "ok") ∧ healthHandler env = healthHandler env2 :=
  ⟨rfl, rfl⟩

/-- C10: a present-but-empty `start_date` or `end_date` behaves exactly like
an absent one — the whole response coincides with the response to the
request without the parameter, the empty value contributes no condition to
the `WHERE` clause of either query text, and the filter echo is null. -/
theorem empty_date_as_absent (env : Env) (p l d : Option String) :
    handle env ⟨p, l, some "", d⟩ = handle env ⟨p, l, none, d⟩ ∧
    handle env ⟨p, l, d, some ""⟩ = handle env ⟨p, l, d, none⟩ ∧
    buildWhereClause (some "") d = buildWhereClause none d ∧
    buildWhereClause d (some "") = buildWhereClause d none ∧
    commitsQueryText (some "") d 10 1 = commitsQueryText none d 10 1 ∧
    countQueryText d (some "") = countQueryText d none ∧
    jsOrNull (some "") = none := by
  refine ⟨rfl, rfl, rfl, rfl, rfl, rfl, rfl⟩

end SampleServer
